import Mathlib

/-!
Shallow embedding of the update-checking core of the
`cosmic-applet-package-updater` repository
(`src/package-updater/src/package_manager.rs`).

Pure functions of the source (the catalog lookups and the line parsers)
are translated directly.  Effectful code (subprocess execution, the lock
file, timers) is modelled by passing the outcomes of the external world
in explicitly: a `ProcessOutput` stands for the captured result of one
subprocess, an `OpenOutcome` for the result of opening the lock file,
and `check_updates` consumes a `CheckEnv` oracle holding the outcome of
every attempt it may make, returning both its result and the ordered
trace of attempts and sleeps it performed.

String primitives of Rust (`split_whitespace`, `contains`, `find`,
`trim`, `starts_with`, `split`, `lines`) are re-implemented here by
structural recursion over the character list of the string, so that
every definition evaluates by kernel reduction.
-/

/-- Enum `PackageManager` from the source, same variants. -/
inductive PackageManager where
  | Pacman
  | Paru
  | Yay
  | Apt
  | Dnf
  | Zypper
  | Apk
  | Flatpak
deriving DecidableEq, Repr

/-- Rust `PackageManager::name`. -/
def PackageManager.name : PackageManager → String
  | .Pacman => "pacman"
  | .Paru => "paru"
  | .Yay => "yay"
  | .Apt => "apt"
  | .Dnf => "dnf"
  | .Zypper => "zypper"
  | .Apk => "apk"
  | .Flatpak => "flatpak"

/-- Rust `PackageManager::supports_aur`: `matches!(self, Paru | Yay)`. -/
def PackageManager.supports_aur : PackageManager → Bool
  | .Paru => true
  | .Yay => true
  | _ => false

/-- Struct `PackageUpdate` from the source. -/
structure PackageUpdate where
  name : String
  current_version : String
  new_version : String
  is_aur : Bool
deriving DecidableEq, Repr

/-- Struct `UpdateInfo` from the source. -/
structure UpdateInfo where
  total_updates : Nat
  official_updates : Nat
  aur_updates : Nat
  packages : List PackageUpdate
deriving DecidableEq, Repr

/-- Rust `UpdateInfo::has_updates`. -/
def UpdateInfo.has_updates (u : UpdateInfo) : Bool := u.total_updates > 0

/-- Whitespace test (ASCII fragment of Rust `char::is_whitespace`). -/
def isWs (c : Char) : Bool := c == ' ' || c == '\t' || c == '\n' || c == '\r'

/-- Accumulating splitter behind `splitWhitespace`. -/
def splitWsAux : List Char → List Char → List String
  | [], acc => if acc.isEmpty then [] else [String.mk acc.reverse]
  | c :: cs, acc =>
    if isWs c then
      if acc.isEmpty then splitWsAux cs []
      else String.mk acc.reverse :: splitWsAux cs []
    else splitWsAux cs (c :: acc)

/-- Rust `str::split_whitespace`: maximal non-whitespace runs, no empties. -/
def splitWhitespace (s : String) : List String := splitWsAux s.data []

/-- Test that `pat` begins the character list `s`. -/
def listBegins : List Char → List Char → Bool
  | [], _ => true
  | _ :: _, [] => false
  | a :: xs, b :: ys => a == b && listBegins xs ys

/-- Occurrence test of `pat` inside a character list. -/
def listContainsSub (pat : List Char) : List Char → Bool
  | [] => listBegins pat []
  | c :: cs => listBegins pat (c :: cs) || listContainsSub pat cs

/-- Rust `str::contains(pat)`. -/
def strContains (s pat : String) : Bool := listContainsSub pat.data s.data

/-- Rust `str::starts_with(pat)`. -/
def strStartsWith (s pat : String) : Bool := listBegins pat.data s.data

/-- Rust `str::trim`. -/
def strTrim (s : String) : String :=
  String.mk (((s.data.dropWhile isWs).reverse.dropWhile isWs).reverse)

/-- Accumulating splitter behind `strSplitChar`. -/
def splitCharAux (ch : Char) : List Char → List Char → List String
  | [], acc => [String.mk acc.reverse]
  | c :: cs, acc =>
    if c == ch then String.mk acc.reverse :: splitCharAux ch cs []
    else splitCharAux ch cs (c :: acc)

/-- Rust `str::split(ch)` for a one-character separator (empty pieces kept). -/
def strSplitChar (ch : Char) (s : String) : List String := splitCharAux ch s.data []

/-- Rust `s.split(ch).next().unwrap()`: text before the first `ch`. -/
def takeUntilChar (ch : Char) (s : String) : String :=
  String.mk (s.data.takeWhile (fun c => c != ch))

/-- Suffix of `s` after the first occurrence of non-empty `pat`
(Rust `s.find(pat)` followed by slicing past the match), or `none`. -/
def afterFirstAux (pat : List Char) : List Char → Option (List Char)
  | [] => none
  | c :: cs =>
    if listBegins pat (c :: cs) then some ((c :: cs).drop pat.length)
    else afterFirstAux pat cs

/-- String wrapper of `afterFirstAux`. -/
def afterFirst (pat s : String) : Option String :=
  (afterFirstAux pat.data s.data).map (fun cs => String.mk cs)

/-- Rust block extracting the old version out of `[upgradable from: X]`
(lines 417-426 and 487-496 of `package_manager.rs`): text after the first
`"[upgradable from: "` up to the first following `]`, else `"unknown"`. -/
def extractBracketVersion (line : String) : String :=
  match afterFirst "[upgradable from: " line with
  | some rest =>
    if rest.data.contains ']' then String.mk (rest.data.takeWhile (fun c => c != ']'))
    else "unknown"
  | none => "unknown"

/-- Rust `pkg_info[..dash_idx]` for `dash_idx = pkg_info.rfind('-')`,
whole string when there is no dash. -/
def beforeLastDash (s : String) : String :=
  if s.data.contains '-' then
    String.mk (((s.data.reverse.dropWhile (fun c => c != '-')).drop 1).reverse)
  else s

/-- Header/noise skip condition of `parse_package_line` (source lines
370-374), applied before any per-manager pattern. -/
def isHeaderLine (line : String) : Bool :=
  strStartsWith line "Listing..." || strStartsWith line "Done" ||
  strStartsWith line "WARNING:" || strStartsWith line "S |" ||
  strStartsWith line "--+" || (strTrim line).data.isEmpty

/-- Rust `UpdateChecker::parse_package_line` (source lines 368-526). -/
def parse_package_line (pm : PackageManager) (line : String) (is_aur : Bool) :
    Option PackageUpdate :=
  if isHeaderLine line then none
  else
    match pm with
    | .Pacman | .Paru | .Yay =>
      if strContains line " -> " then
        let parts := splitWhitespace line
        if 4 ≤ parts.length ∧ parts.getD 2 "" = "->" then
          some { name := parts.getD 0 "", current_version := parts.getD 1 "",
                 new_version := parts.getD 3 "", is_aur := is_aur }
        else none
      else
        let parts := splitWhitespace line
        if 2 ≤ parts.length then
          some { name := parts.getD 0 "", current_version := "unknown",
                 new_version := parts.getD 1 "", is_aur := is_aur }
        else none
    | .Apt =>
      if strContains line "[upgradable from:" then
        let name := takeUntilChar '/' line
        let parts := splitWhitespace line
        let new_version := if 2 ≤ parts.length then parts.getD 1 "" else "unknown"
        some { name := name, current_version := extractBracketVersion line,
               new_version := new_version, is_aur := false }
      else none
    | .Dnf =>
      let parts := splitWhitespace line
      if 2 ≤ parts.length then
        some { name := takeUntilChar '.' (parts.getD 0 ""),
               current_version := "unknown", new_version := parts.getD 1 "",
               is_aur := false }
      else none
    | .Zypper =>
      let parts := strSplitChar '|' line
      if 4 ≤ parts.length then
        some { name := strTrim (parts.getD 1 ""), current_version := "unknown",
               new_version := strTrim (parts.getD 3 ""), is_aur := false }
      else none
    | .Apk =>
      if strContains line "[upgradable from:" then
        let parts := splitWhitespace line
        if 1 ≤ parts.length then
          some { name := beforeLastDash (parts.getD 0 ""),
                 current_version := extractBracketVersion line,
                 new_version := parts.getD 1 "unknown", is_aur := false }
        else none
      else none
    | .Flatpak =>
      let parts := strSplitChar '\t' line
      if 3 ≤ parts.length then
        some { name := parts.getD 0 "", current_version := "unknown",
               new_version := parts.getD 2 "", is_aur := false }
      else none

example : parse_package_line .Pacman "firefox 120.0-1 -> 121.0-1" false =
    some ⟨"firefox", "120.0-1", "121.0-1", false⟩ := by decide

example : parse_package_line .Paru "yay-bin 12.1-1" true =
    some ⟨"yay-bin", "unknown", "12.1-1", true⟩ := by decide

example : parse_package_line .Pacman "garbage !! not a package line" false =
    some ⟨"garbage", "unknown", "!!", false⟩ := by decide

example : parse_package_line .Apt "garbage !! not a package line" false = none := by decide

example : parse_package_line .Apt
    "vim/stable 9.1-1 amd64 [upgradable from: 9.0-2]" false =
    some ⟨"vim", "9.0-2", "9.1-1", false⟩ := by decide

example : parse_package_line .Apk
    "vim-9.1 [upgradable from: vim-9.0]" false =
    some ⟨"vim", "vim-9.0", "[upgradable", false⟩ := by decide

example : parse_package_line .Zypper "v | vim | pkg | 9.1 |" false =
    some ⟨"vim", "unknown", "9.1", false⟩ := by decide

example : parse_package_line .Flatpak "Firefox\torg.mozilla.firefox\t121.0\tstable\tflathub" false =
    some ⟨"Firefox", "unknown", "121.0", false⟩ := by decide

example : parse_package_line .Dnf "vim.x86_64 9.1-1 updates" false =
    some ⟨"vim", "unknown", "9.1-1", false⟩ := by decide

/-- Strip one trailing carriage return, as Rust `str::lines` does per line. -/
def stripCr (l : String) : String :=
  if l.data.getLast? == some '\r' then String.mk l.data.dropLast else l

/-- Rust `str::lines`: split on newline, drop a final empty piece produced
by a trailing newline, strip one trailing carriage return per line. -/
def rustLines (s : String) : List String :=
  let ls := strSplitChar '\n' s
  let ls := if ls.getLast? == some "" then ls.dropLast else ls
  ls.map stripCr

/-- Captured outcome of one finished subprocess: `code` is
`status.code()` (`none` when killed by a signal) and `stdout` the
captured standard output decoded as text. -/
structure ProcessOutput where
  code : Option Int
  stdout : String
deriving DecidableEq, Repr

/-- Rust `ExitStatus::success()` on Unix: exit code zero. -/
def statusSuccess (o : ProcessOutput) : Bool := o.code == some 0

/-- Per-line parse loop of `parse_update_output` (source lines 356-365). -/
def parseOutputLines (pm : PackageManager) (is_aur : Bool) (stdout : String) :
    List PackageUpdate :=
  (rustLines stdout).filterMap (fun l => parse_package_line pm l is_aur)

/-- Exit-code classification and parsing of `UpdateChecker::parse_update_output`
(source lines 320-366), applied to the outcome of an already-finished
subprocess.  The subprocess spawn itself is modelled by the caller. -/
def parse_update_output (pm : PackageManager) (cmd : String) (is_aur : Bool)
    (o : ProcessOutput) : Except String (List PackageUpdate) :=
  if !statusSuccess o then
    let exitCode : Int := o.code.getD (-1)
    if (cmd == "checkupdates" && exitCode == 2) ||
       ((cmd == "paru" || cmd == "yay") && exitCode == 1) ||
       (cmd == "dnf" && exitCode == 100) then
      if cmd == "dnf" && exitCode == 100 then
        Except.ok (parseOutputLines pm is_aur o.stdout)
      else
        Except.ok []
    else if (strTrim o.stdout).data.isEmpty then
      Except.error ("Failed to check for updates (exit " ++ toString exitCode ++ ")")
    else
      Except.ok (parseOutputLines pm is_aur o.stdout)
  else
    Except.ok (parseOutputLines pm is_aur o.stdout)

/-- Official-phase binary and arguments (source lines 277-306). -/
def officialCommand : PackageManager → String × List String
  | .Pacman | .Paru | .Yay => ("checkupdates", [])
  | .Apt => ("apt", ["list", "--upgradable"])
  | .Dnf => ("dnf", ["check-update", "-q"])
  | .Zypper => ("zypper", ["list-updates"])
  | .Apk => ("apk", ["-u", "list"])
  | .Flatpak => ("flatpak", ["remote-ls", "--updates"])

/-- AUR-phase binary and arguments (source lines 308-318); `none` for the
managers whose `check_aur_updates` returns an empty list without spawning. -/
def aurCommand : PackageManager → Option (String × List String)
  | .Paru => some ("paru", ["-Qu", "--aur"])
  | .Yay => some ("yay", ["-Qu", "--aur"])
  | _ => none

/-- Rust `UpdateChecker::check_official_updates`, over the spawn outcome
(`Except.error` when the subprocess could not be started). -/
def check_official_updates (pm : PackageManager)
    (spawn : Except String ProcessOutput) : Except String (List PackageUpdate) :=
  match spawn with
  | .error e => .error e
  | .ok o => parse_update_output pm (officialCommand pm).1 false o

/-- Rust `UpdateChecker::check_aur_updates`, over the spawn outcome. -/
def check_aur_updates (pm : PackageManager)
    (spawn : Except String ProcessOutput) : Except String (List PackageUpdate) :=
  match aurCommand pm with
  | none => .ok []
  | some (cmd, _) =>
    match spawn with
    | .error e => .error e
    | .ok o => parse_update_output pm cmd true o

/-- Error kind reported by the failed open of the lock file. -/
inductive LockErrorKind where
  | permissionDenied
  | otherError (msg : String)
deriving DecidableEq, Repr

/-- Outcome of `OpenOptions::open` on the lock path. -/
inductive OpenOutcome where
  | success
  | failure (kind : LockErrorKind)
deriving DecidableEq, Repr

/-- Host state seen by the lock code: the content of the lock file, or
`none` when the file does not exist. -/
structure FsState where
  lockFile : Option String
deriving DecidableEq, Repr

/-- Rust `UpdateChecker::acquire_lock` (source lines 175-195): on a
successful open (write+create+truncate) the previous content is gone and
the caller's process id plus a newline is written; a permission-denied
error maps to the contention message; any other error to a generic one.
Returns the new lock-file state standing in for the open `File` handle. -/
def acquire_lock (_fs : FsState) (outcome : OpenOutcome) (pid : Nat) :
    Except String FsState :=
  match outcome with
  | .success => Except.ok { lockFile := some (Nat.repr pid ++ "\n") }
  | .failure .permissionDenied =>
    Except.error "Another instance is checking for updates"
  | .failure (.otherError m) => Except.error ("Failed to acquire lock: " ++ m)

/-- Dropping the `File` handle at the end of `check_updates` closes the
descriptor and leaves the lock file in place (Rust `std::fs::File` drop
semantics): the filesystem state is unchanged. -/
def releaseLock (fs : FsState) : FsState := fs

/-- Observable step of one `check_updates` run. -/
inductive Ev where
  | lockAttempt
  | sleepSecs (n : Nat)
  | officialRun
  | aurRun
deriving DecidableEq, Repr

/-- Oracle for one `check_updates` run: the outcome of every attempt the
run may make, in program order. -/
structure CheckEnv where
  fs : FsState
  pid : Nat
  lock1 : OpenOutcome
  lock2 : OpenOutcome
  official1 : Except String ProcessOutput
  official2 : Except String ProcessOutput
  aur1 : Except String ProcessOutput
  aur2 : Except String ProcessOutput

/-- Official phase of `check_updates` (source lines 216-238): one attempt,
and on failure a one-second sleep and exactly one retry; a second failure
contributes zero records. -/
def officialPhase (pm : PackageManager) (env : CheckEnv) :
    List PackageUpdate × List Ev :=
  match check_official_updates pm env.official1 with
  | .ok l => (l, [Ev.officialRun])
  | .error _ =>
    match check_official_updates pm env.official2 with
    | .ok l => (l, [Ev.officialRun, Ev.sleepSecs 1, Ev.officialRun])
    | .error _ => ([], [Ev.officialRun, Ev.sleepSecs 1, Ev.officialRun])

/-- AUR phase of `check_updates` (source lines 241-265), same retry shape. -/
def aurPhase (pm : PackageManager) (env : CheckEnv) :
    List PackageUpdate × List Ev :=
  match check_aur_updates pm env.aur1 with
  | .ok l => (l, [Ev.aurRun])
  | .error _ =>
    match check_aur_updates pm env.aur2 with
    | .ok l => (l, [Ev.aurRun, Ev.sleepSecs 1, Ev.aurRun])
    | .error _ => ([], [Ev.aurRun, Ev.sleepSecs 1, Ev.aurRun])

/-- Body of `check_updates` after the lock is held (source lines 213-274):
official phase, then the AUR phase only when the manager supports AUR,
then the total computed from the accumulated package list. -/
def checkBody (pm : PackageManager) (env : CheckEnv) (lockEv : List Ev) :
    Except String UpdateInfo × List Ev :=
  let off := officialPhase pm env
  let aur := if pm.supports_aur then aurPhase pm env
             else (([] : List PackageUpdate), ([] : List Ev))
  let packages := off.1 ++ aur.1
  (Except.ok { total_updates := packages.length,
               official_updates := off.1.length,
               aur_updates := aur.1.length,
               packages := packages },
   lockEv ++ off.2 ++ aur.2)

/-- Rust `UpdateChecker::check_updates` (source lines 197-275).  The
`_include_aur` argument is the `_include_aur: bool` parameter of the
source, which the body never reads.  Lock acquisition is attempted, and
retried exactly once after a two-second sleep; when both attempts fail
the run returns an error without running any phase. -/
def check_updates (pm : PackageManager) (_include_aur : Bool) (env : CheckEnv) :
    Except String UpdateInfo × List Ev :=
  match acquire_lock env.fs env.lock1 env.pid with
  | .ok _ => checkBody pm env [Ev.lockAttempt]
  | .error _ =>
    match acquire_lock env.fs env.lock2 env.pid with
    | .ok _ => checkBody pm env [Ev.lockAttempt, Ev.sleepSecs 2, Ev.lockAttempt]
    | .error e =>
      (Except.error ("Update check already in progress: " ++ e),
       [Ev.lockAttempt, Ev.sleepSecs 2, Ev.lockAttempt])

/-- Boolean success test for `Except` results. -/
def isOkE {α : Type} : Except String α → Bool
  | .ok _ => true
  | .error _ => false

/-- Fixed probe order of `PackageManagerDetector::detect_available`
(source lines 104-116). -/
def priorityOrder : List PackageManager :=
  [.Paru, .Yay, .Pacman, .Apt, .Dnf, .Zypper, .Apk, .Flatpak]

/-- Rust `PackageManagerDetector::is_available` over the probe outcome:
`Command::new("which").output()` can error (`Except.error`) or report the
probe's exit status; an error is mapped to `false` by `unwrap_or(false)`. -/
def is_available (probe : PackageManager → Except Unit Bool)
    (pm : PackageManager) : Bool :=
  match probe pm with
  | .ok b => b
  | .error _ => false

/-- Rust `PackageManagerDetector::detect_available` (source lines 100-123):
push each available manager in probe order. -/
def detect_available (probe : PackageManager → Except Unit Bool) :
    List PackageManager :=
  priorityOrder.foldl (fun acc pm => if is_available probe pm then acc ++ [pm] else acc) []

/-- Rust `PackageManagerDetector::get_preferred` (source lines 125-127). -/
def get_preferred (probe : PackageManager → Except Unit Bool) :
    Option PackageManager :=
  (detect_available probe).head?

/-- C10: for every manager family, not only Zypper, a line starting with one
of the five header markers, or whose trimmed content is empty, produces no
record: the skip list runs before the family-specific pattern match. -/
theorem c10_header_skip_all_managers (pm : PackageManager) (line : String)
    (is_aur : Bool)
    (h : strStartsWith line "Listing..." = true ∨ strStartsWith line "Done" = true ∨
         strStartsWith line "WARNING:" = true ∨ strStartsWith line "S |" = true ∨
         strStartsWith line "--+" = true ∨ (strTrim line).data.isEmpty = true) :
    parse_package_line pm line is_aur = none := by
  have hh : isHeaderLine line = true := by
    unfold isHeaderLine
    rcases h with h | h | h | h | h | h <;> simp [h]
  unfold parse_package_line
  simp [hh]

/-- Witness for C10 at the concrete Apt parser on the line `"Done"`. -/
theorem c10_header_skip_all_managers_witness :
    parse_package_line PackageManager.Apt "Done" false = none :=
  c10_header_skip_all_managers PackageManager.Apt "Done" false
    (Or.inr (Or.inl (by decide)))

/-- C5 counterexample: the Pacman parser does not drop the line
`"garbage !! not a package line"`; it matches the bare two-token Arch
pattern and yields a record. -/
theorem c5_counterexample_pacman_garbage :
    parse_package_line PackageManager.Pacman "garbage !! not a package line" false =
      some ⟨"garbage", "unknown", "!!", false⟩ := by decide

/-- C5 (amended): the line `"garbage !! not a package line"` is dropped by
the Apt, Zypper, Apk and Flatpak parsers; the Arch-family (Pacman, Paru,
Yay) and Dnf parsers match it as a bare two-token line and produce a
record with name `"garbage"` and new version `"!!"`; in every family its
presence does not change the records produced for the surrounding lines. -/
theorem c5_garbage_line_amended :
    (∀ is_aur,
      parse_package_line PackageManager.Apt "garbage !! not a package line" is_aur = none ∧
      parse_package_line PackageManager.Zypper "garbage !! not a package line" is_aur = none ∧
      parse_package_line PackageManager.Apk "garbage !! not a package line" is_aur = none ∧
      parse_package_line PackageManager.Flatpak "garbage !! not a package line" is_aur = none) ∧
    (∀ is_aur,
      parse_package_line PackageManager.Pacman "garbage !! not a package line" is_aur =
        some ⟨"garbage", "unknown", "!!", is_aur⟩ ∧
      parse_package_line PackageManager.Paru "garbage !! not a package line" is_aur =
        some ⟨"garbage", "unknown", "!!", is_aur⟩ ∧
      parse_package_line PackageManager.Yay "garbage !! not a package line" is_aur =
        some ⟨"garbage", "unknown", "!!", is_aur⟩ ∧
      parse_package_line PackageManager.Dnf "garbage !! not a package line" is_aur =
        some ⟨"garbage", "unknown", "!!", false⟩) ∧
    (∀ pm is_aur l1 l2,
      (l1 ++ "garbage !! not a package line" :: l2).filterMap
          (fun l => parse_package_line pm l is_aur) =
        l1.filterMap (fun l => parse_package_line pm l is_aur) ++
        (parse_package_line pm "garbage !! not a package line" is_aur).toList ++
        l2.filterMap (fun l => parse_package_line pm l is_aur)) := by
  refine ⟨?_, ?_, ?_⟩
  · intro is_aur; cases is_aur <;> exact ⟨by decide, by decide, by decide, by decide⟩
  · intro is_aur; cases is_aur <;> exact ⟨by decide, by decide, by decide, by decide⟩
  · intro pm is_aur l1 l2
    rw [List.filterMap_append, List.filterMap_cons]
    cases h : parse_package_line pm "garbage !! not a package line" is_aur <;>
      simp [h]

/-- Environment for the end-to-end Arch example of C6: lock open succeeds,
the official `checkupdates` run exits 0 with the two example lines, and
the AUR helper run exits 0 with the single example line. -/
def envC6 : CheckEnv :=
  { fs := ⟨none⟩, pid := 1, lock1 := .success, lock2 := .success,
    official1 := Except.ok ⟨some 0, "firefox 120.0-1 -> 121.0-1\nvim 9.0-2 -> 9.1-1\n"⟩,
    official2 := Except.ok ⟨some 0, ""⟩,
    aur1 := Except.ok ⟨some 0, "yay-bin 12.1-1\n"⟩,
    aur2 := Except.ok ⟨some 0, ""⟩ }

/-- C6: Arch-family parsing.  A line whose whitespace tokens are
`[name, old, "->", new]` and which contains `" -> "` yields the full
record; a bare two-token line yields a record with current version
`"unknown"`; and the end-to-end example report has `officialCount = 2`,
`aurCount = 1`, `totalCount = 3` with the versions taken from the
expected sides. -/
theorem c6_arch_family_parsing :
    (∀ pm line name old new is_aur,
       (pm = PackageManager.Pacman ∨ pm = PackageManager.Paru ∨ pm = PackageManager.Yay) →
       isHeaderLine line = false →
       strContains line " -> " = true →
       splitWhitespace line = [name, old, "->", new] →
       parse_package_line pm line is_aur = some ⟨name, old, new, is_aur⟩) ∧
    (∀ pm line name new is_aur,
       (pm = PackageManager.Pacman ∨ pm = PackageManager.Paru ∨ pm = PackageManager.Yay) →
       isHeaderLine line = false →
       strContains line " -> " = false →
       splitWhitespace line = [name, new] →
       parse_package_line pm line is_aur = some ⟨name, "unknown", new, is_aur⟩) ∧
    (check_updates PackageManager.Paru true envC6).1 =
      Except.ok { total_updates := 3, official_updates := 2, aur_updates := 1,
                  packages := [⟨"firefox", "120.0-1", "121.0-1", false⟩,
                               ⟨"vim", "9.0-2", "9.1-1", false⟩,
                               ⟨"yay-bin", "unknown", "12.1-1", true⟩] } := by
  refine ⟨?_, ?_, ?_⟩
  · intro pm line name old new is_aur hpm hh hc hs
    rcases hpm with h | h | h <;> subst h <;>
      simp [parse_package_line, hh, hc, hs]
  · intro pm line name new is_aur hpm hh hc hs
    rcases hpm with h | h | h <;> subst h <;>
      simp [parse_package_line, hh, hc, hs]
  · rfl

/-- Witness for C6 at the concrete example lines of the claim. -/
theorem c6_arch_family_parsing_witness :
    parse_package_line PackageManager.Pacman "firefox 120.0-1 -> 121.0-1" false =
      some ⟨"firefox", "120.0-1", "121.0-1", false⟩ ∧
    parse_package_line PackageManager.Yay "yay-bin 12.1-1" true =
      some ⟨"yay-bin", "unknown", "12.1-1", true⟩ :=
  ⟨c6_arch_family_parsing.1 PackageManager.Pacman "firefox 120.0-1 -> 121.0-1"
      "firefox" "120.0-1" "121.0-1" false (Or.inl rfl) (by decide) (by decide) (by decide),
   c6_arch_family_parsing.2.1 PackageManager.Yay "yay-bin 12.1-1"
      "yay-bin" "12.1-1" true (Or.inr (Or.inr rfl)) (by decide) (by decide) (by decide)⟩

/-- C3: exit-code classification.  `checkupdates` exit 2 and `paru`/`yay`
exit 1 give a successful empty result; `dnf` exit 100 with non-empty
stdout is parsed into records; any other failing status with empty
(trimmed) stdout is a hard failure; any other failing status with
non-empty stdout is tolerated and its stdout parsed anyway. -/
theorem c3_exit_code_classification :
    (∀ pm is_aur s,
       parse_update_output pm "checkupdates" is_aur ⟨some 2, s⟩ = Except.ok []) ∧
    (∀ pm is_aur s,
       parse_update_output pm "paru" is_aur ⟨some 1, s⟩ = Except.ok [] ∧
       parse_update_output pm "yay" is_aur ⟨some 1, s⟩ = Except.ok []) ∧
    (∀ pm is_aur s, (strTrim s).data.isEmpty = false →
       parse_update_output pm "dnf" is_aur ⟨some 100, s⟩ =
         Except.ok (parseOutputLines pm is_aur s)) ∧
    (∀ pm cmd is_aur c s,
       statusSuccess ⟨c, s⟩ = false →
       ((cmd == "checkupdates" && (c.getD (-1) == 2)) ||
        ((cmd == "paru" || cmd == "yay") && (c.getD (-1) == 1)) ||
        ((cmd == "dnf") && (c.getD (-1) == 100))) = false →
       (strTrim s).data.isEmpty = true →
       isOkE (parse_update_output pm cmd is_aur ⟨c, s⟩) = false) ∧
    (∀ pm cmd is_aur c s,
       statusSuccess ⟨c, s⟩ = false →
       ((cmd == "checkupdates" && (c.getD (-1) == 2)) ||
        ((cmd == "paru" || cmd == "yay") && (c.getD (-1) == 1)) ||
        ((cmd == "dnf") && (c.getD (-1) == 100))) = false →
       (strTrim s).data.isEmpty = false →
       parse_update_output pm cmd is_aur ⟨c, s⟩ =
         Except.ok (parseOutputLines pm is_aur s)) := by
  refine ⟨fun pm is_aur s => rfl, fun pm is_aur s => ⟨rfl, rfl⟩,
          fun pm is_aur s _ => rfl, ?_, ?_⟩
  · intro pm cmd is_aur c s h1 h2 h3
    unfold parse_update_output
    simp only [h1, h2, h3, Bool.not_false, if_true, if_false, Bool.false_eq_true,
      ite_false, ite_true]
    rfl
  · intro pm cmd is_aur c s h1 h2 h3
    unfold parse_update_output
    simp only [h1, h2, h3, Bool.not_false, if_true, if_false, Bool.false_eq_true,
      ite_false, ite_true]

/-- Witness for C3 at concrete outputs: a `dnf` exit 100 with real lines,
an unrecognized exit 5 with blank stdout, and an unrecognized exit 5 with
usable stdout. -/
theorem c3_exit_code_classification_witness :
    parse_update_output PackageManager.Dnf "dnf" false
        ⟨some 100, "vim.x86_64 9.1-1 updates"⟩ =
      Except.ok (parseOutputLines PackageManager.Dnf false "vim.x86_64 9.1-1 updates") ∧
    isOkE (parse_update_output PackageManager.Apt "foo" false ⟨some 5, " "⟩) = false ∧
    parse_update_output PackageManager.Apt "foo" false
        ⟨some 5, "a/s 2 m [upgradable from: 1]"⟩ =
      Except.ok (parseOutputLines PackageManager.Apt false "a/s 2 m [upgradable from: 1]") :=
  ⟨c3_exit_code_classification.2.2.1 PackageManager.Dnf false
      "vim.x86_64 9.1-1 updates" (by decide),
   c3_exit_code_classification.2.2.2.1 PackageManager.Apt "foo" false (some 5) " "
      (by decide) (by decide) (by decide),
   c3_exit_code_classification.2.2.2.2 PackageManager.Apt "foo" false (some 5)
      "a/s 2 m [upgradable from: 1]" (by decide) (by decide) (by decide)⟩

/-- Fields of the report built by `checkBody`: the totals are the lengths
of the accumulated package list. -/
theorem checkBody_ok_shape (pm : PackageManager) (env : CheckEnv)
    (lockEv : List Ev) (info : UpdateInfo)
    (h : (checkBody pm env lockEv).1 = Except.ok info) :
    info.total_updates = info.official_updates + info.aur_updates ∧
    info.total_updates = info.packages.length := by
  unfold checkBody at h
  simp only [Except.ok.injEq] at h
  rw [← h]
  refine ⟨?_, rfl⟩
  simp [List.length_append]

/-- Environment where every attempt succeeds with no output. -/
def envQuiet : CheckEnv :=
  { fs := ⟨none⟩, pid := 1, lock1 := .success, lock2 := .success,
    official1 := Except.ok ⟨some 0, ""⟩, official2 := Except.ok ⟨some 0, ""⟩,
    aur1 := Except.ok ⟨some 0, ""⟩, aur2 := Except.ok ⟨some 0, ""⟩ }

/-- C2: every report returned by `check_updates`, over any subprocess
outcomes for the two phases (including phase failures and the skipped
AUR phase), satisfies `totalCount = officialCount + aurCount =
records.length`; the total is computed from the final package list after
both phases have settled. -/
theorem c2_report_invariant (pm : PackageManager) (b : Bool) (env : CheckEnv)
    (info : UpdateInfo) (h : (check_updates pm b env).1 = Except.ok info) :
    info.total_updates = info.official_updates + info.aur_updates ∧
    info.total_updates = info.packages.length := by
  unfold check_updates at h
  split at h
  · exact checkBody_ok_shape pm env _ info h
  · split at h
    · exact checkBody_ok_shape pm env _ info h
    · simp at h

/-- Witness for C2 at the quiet environment, whose report is all zero. -/
theorem c2_report_invariant_witness :
    (UpdateInfo.mk 0 0 0 []).total_updates =
        (UpdateInfo.mk 0 0 0 []).official_updates +
        (UpdateInfo.mk 0 0 0 []).aur_updates ∧
    (UpdateInfo.mk 0 0 0 []).total_updates =
        (UpdateInfo.mk 0 0 0 []).packages.length :=
  c2_report_invariant PackageManager.Pacman true envQuiet (UpdateInfo.mk 0 0 0 []) rfl

/-- Environment for the C1 counterexample: lock open succeeds, the
official phase reports nothing, and the AUR helper reports one update. -/
def envC1 : CheckEnv :=
  { fs := ⟨none⟩, pid := 1, lock1 := .success, lock2 := .success,
    official1 := Except.ok ⟨some 0, ""⟩, official2 := Except.ok ⟨some 0, ""⟩,
    aur1 := Except.ok ⟨some 0, "yay-bin 12.1-1\n"⟩,
    aur2 := Except.ok ⟨some 0, ""⟩ }

/-- C1 counterexample: `check_updates` called on Paru with
`includeSecondaryRepo = false` still runs the AUR phase and returns a
report with `aurCount = 1`, not `0`. -/
theorem c1_counterexample_flag_ignored :
    (check_updates PackageManager.Paru false envC1).1 =
      Except.ok { total_updates := 1, official_updates := 0, aur_updates := 1,
                  packages := [⟨"yay-bin", "unknown", "12.1-1", true⟩] } := rfl

/-- The AUR component of `checkBody` is empty when the manager does not
support AUR. -/
theorem checkBody_no_aur (pm : PackageManager) (env : CheckEnv)
    (lockEv : List Ev) (info : UpdateInfo) (hsup : pm.supports_aur = false)
    (h : (checkBody pm env lockEv).1 = Except.ok info) :
    info.aur_updates = 0 := by
  unfold checkBody at h
  rw [hsup] at h
  simp only [Bool.false_eq_true, if_false, Except.ok.injEq] at h
  rw [← h]
  rfl

/-- C1 (amended): `check_updates` ignores its `includeSecondaryRepo`
argument entirely, so the AUR phase runs whenever the manager supports
AUR regardless of the flag; `aurCount = 0` does hold whenever
`supportsAur` is false, and `supportsAur` is true iff the manager is
Paru or Yay. -/
theorem c1_aur_flag_amended :
    (∀ pm b1 b2 env, check_updates pm b1 env = check_updates pm b2 env) ∧
    (∀ pm : PackageManager, pm.supports_aur = true ↔
       (pm = PackageManager.Paru ∨ pm = PackageManager.Yay)) ∧
    (∀ pm b env info, pm.supports_aur = false →
       (check_updates pm b env).1 = Except.ok info → info.aur_updates = 0) := by
  refine ⟨fun pm b1 b2 env => rfl, ?_, ?_⟩
  · intro pm; cases pm <;> simp [PackageManager.supports_aur]
  · intro pm b env info hsup h
    unfold check_updates at h
    split at h
    · exact checkBody_no_aur pm env _ info hsup h
    · split at h
      · exact checkBody_no_aur pm env _ info hsup h
      · simp at h

/-- Environment for the C1 witness: an Apt check whose lock and official
phase succeed quietly. -/
def envC1W : CheckEnv :=
  { fs := ⟨none⟩, pid := 7, lock1 := .success, lock2 := .success,
    official1 := Except.ok ⟨some 0, ""⟩, official2 := Except.ok ⟨some 0, ""⟩,
    aur1 := Except.ok ⟨some 0, ""⟩, aur2 := Except.ok ⟨some 0, ""⟩ }

/-- Witness for C1 on Apt, a manager without AUR support. -/
theorem c1_aur_flag_amended_witness :
    (UpdateInfo.mk 0 0 0 []).aur_updates = 0 :=
  c1_aur_flag_amended.2.2 PackageManager.Apt true envC1W
    (UpdateInfo.mk 0 0 0 []) rfl rfl


/-- The body after lock acquisition always returns a report, never an error. -/
theorem checkBody_isOk (pm : PackageManager) (env : CheckEnv) (lockEv : List Ev) :
    isOkE (checkBody pm env lockEv).1 = true := rfl

/-- The AUR phase trace always records at least one AUR attempt. -/
theorem aurRun_mem_aurPhase (pm : PackageManager) (env : CheckEnv) :
    Ev.aurRun ∈ (aurPhase pm env).2 := by
  unfold aurPhase
  split
  · simp
  · split <;> simp

/-- The official phase trace always records at least one official attempt. -/
theorem officialRun_mem_officialPhase (pm : PackageManager) (env : CheckEnv) :
    Ev.officialRun ∈ (officialPhase pm env).2 := by
  unfold officialPhase
  split
  · simp
  · split <;> simp

/-- The official phase trace contains no lock attempt. -/
theorem count_lockAttempt_officialPhase (pm : PackageManager) (env : CheckEnv) :
    ((officialPhase pm env).2).count Ev.lockAttempt = 0 := by
  unfold officialPhase
  split
  · rfl
  · split <;> rfl

/-- The AUR phase trace contains no lock attempt. -/
theorem count_lockAttempt_aurPhase (pm : PackageManager) (env : CheckEnv) :
    ((aurPhase pm env).2).count Ev.lockAttempt = 0 := by
  unfold aurPhase
  split
  · rfl
  · split <;> rfl

/-- Lock attempts recorded by `checkBody` are exactly those of its lock
trace argument. -/
theorem count_lockAttempt_checkBody (pm : PackageManager) (env : CheckEnv)
    (lockEv : List Ev) :
    ((checkBody pm env lockEv).2).count Ev.lockAttempt =
      lockEv.count Ev.lockAttempt := by
  unfold checkBody
  simp only [List.count_append]
  rw [count_lockAttempt_officialPhase]
  rcases hsup : pm.supports_aur with _ | _
  · simp [hsup]
  · simp [hsup, count_lockAttempt_aurPhase]

/-- The official phase always appears in the trace of `checkBody`. -/
theorem officialRun_mem_checkBody (pm : PackageManager) (env : CheckEnv)
    (lockEv : List Ev) :
    Ev.officialRun ∈ (checkBody pm env lockEv).2 := by
  unfold checkBody
  simp only [List.mem_append]
  exact Or.inl (Or.inr (officialRun_mem_officialPhase pm env))

/-- C4: a failure of the official phase (after its retry) does not prevent
the AUR phase from running; a failure of either phase never makes
`check_updates` return an error; the only error it can return is the
lock-contention error after the one lock retry. -/
theorem c4_phase_failure_isolation :
    (∀ pm b env e, (check_updates pm b env).1 = Except.error e →
       ∃ e1 e2, acquire_lock env.fs env.lock1 env.pid = Except.error e1 ∧
                acquire_lock env.fs env.lock2 env.pid = Except.error e2 ∧
                e = "Update check already in progress: " ++ e2) ∧
    (∀ pm b env, (isOkE (acquire_lock env.fs env.lock1 env.pid) = true ∨
                  isOkE (acquire_lock env.fs env.lock2 env.pid) = true) →
       isOkE (check_updates pm b env).1 = true) ∧
    (∀ pm b env e1 e2, pm.supports_aur = true →
       check_official_updates pm env.official1 = Except.error e1 →
       check_official_updates pm env.official2 = Except.error e2 →
       env.lock1 = OpenOutcome.success →
       Ev.aurRun ∈ (check_updates pm b env).2) := by
  refine ⟨?_, ?_, ?_⟩
  · intro pm b env e h
    unfold check_updates at h
    cases hacq1 : acquire_lock env.fs env.lock1 env.pid with
    | ok f =>
      rw [hacq1] at h
      have h' : (checkBody pm env [Ev.lockAttempt]).1 = Except.error e := h
      have hk := checkBody_isOk pm env [Ev.lockAttempt]
      rw [h'] at hk
      simp [isOkE] at hk
    | error e1 =>
      rw [hacq1] at h
      cases hacq2 : acquire_lock env.fs env.lock2 env.pid with
      | ok f =>
        rw [hacq2] at h
        have h' : (checkBody pm env
            [Ev.lockAttempt, Ev.sleepSecs 2, Ev.lockAttempt]).1 = Except.error e := h
        have hk := checkBody_isOk pm env [Ev.lockAttempt, Ev.sleepSecs 2, Ev.lockAttempt]
        rw [h'] at hk
        simp [isOkE] at hk
      | error e2 =>
        rw [hacq2] at h
        have h' : (Except.error ("Update check already in progress: " ++ e2) :
            Except String UpdateInfo) = Except.error e := h
        simp only [Except.error.injEq] at h'
        exact ⟨e1, e2, rfl, rfl, h'.symm⟩
  · intro pm b env h
    unfold check_updates
    cases hacq1 : acquire_lock env.fs env.lock1 env.pid with
    | ok f => exact checkBody_isOk pm env [Ev.lockAttempt]
    | error e1 =>
      cases hacq2 : acquire_lock env.fs env.lock2 env.pid with
      | ok f => exact checkBody_isOk pm env [Ev.lockAttempt, Ev.sleepSecs 2, Ev.lockAttempt]
      | error e2 =>
        exfalso
        rcases h with h | h
        · rw [hacq1] at h; simp [isOkE] at h
        · rw [hacq2] at h; simp [isOkE] at h
  · intro pm b env e1 e2 hsup h1 h2 hl
    unfold check_updates
    rw [hl]
    show Ev.aurRun ∈ (checkBody pm env [Ev.lockAttempt]).2
    unfold checkBody
    simp only [List.mem_append, hsup, if_true]
    exact Or.inr (aurRun_mem_aurPhase pm env)

/-- Environment where both lock-open attempts are denied. -/
def envC4F : CheckEnv :=
  { fs := ⟨none⟩, pid := 3,
    lock1 := .failure .permissionDenied, lock2 := .failure .permissionDenied,
    official1 := Except.ok ⟨some 0, ""⟩, official2 := Except.ok ⟨some 0, ""⟩,
    aur1 := Except.ok ⟨some 0, ""⟩, aur2 := Except.ok ⟨some 0, ""⟩ }

/-- Environment where the lock succeeds but the official phase fails to
spawn on both attempts. -/
def envC4W : CheckEnv :=
  { fs := ⟨none⟩, pid := 4, lock1 := .success, lock2 := .success,
    official1 := Except.error "spawn failed", official2 := Except.error "spawn failed",
    aur1 := Except.ok ⟨some 0, ""⟩, aur2 := Except.ok ⟨some 0, ""⟩ }

/-- Witness for C4: the contention error when both lock attempts fail, a
successful report despite the lock disjunction hypothesis, and the AUR
phase running on Paru after a doubly-failed official phase. -/
theorem c4_phase_failure_isolation_witness :
    (∃ e1 e2, acquire_lock envC4F.fs envC4F.lock1 envC4F.pid = Except.error e1 ∧
              acquire_lock envC4F.fs envC4F.lock2 envC4F.pid = Except.error e2 ∧
              ("Update check already in progress: " ++
                 "Another instance is checking for updates") =
                "Update check already in progress: " ++ e2) ∧
    isOkE (check_updates PackageManager.Pacman true envC4W).1 = true ∧
    Ev.aurRun ∈ (check_updates PackageManager.Paru true envC4W).2 :=
  ⟨c4_phase_failure_isolation.1 PackageManager.Pacman true envC4F
      ("Update check already in progress: " ++
        "Another instance is checking for updates") rfl,
   c4_phase_failure_isolation.2.1 PackageManager.Pacman true envC4W (Or.inl rfl),
   c4_phase_failure_isolation.2.2 PackageManager.Paru true envC4W
      "spawn failed" "spawn failed" rfl rfl rfl rfl⟩

/-- C7: when the first lock attempt fails, `check_updates` sleeps and
retries acquisition exactly once; a second failure returns an error with
no phase having run; a success on either attempt lets the check proceed. -/
theorem c7_lock_acquisition_retry :
    (∀ pm b env e1 e2,
       acquire_lock env.fs env.lock1 env.pid = Except.error e1 →
       acquire_lock env.fs env.lock2 env.pid = Except.error e2 →
       check_updates pm b env =
         (Except.error ("Update check already in progress: " ++ e2),
          [Ev.lockAttempt, Ev.sleepSecs 2, Ev.lockAttempt])) ∧
    (∀ pm b env e1,
       acquire_lock env.fs env.lock1 env.pid = Except.error e1 →
       isOkE (acquire_lock env.fs env.lock2 env.pid) = true →
       isOkE (check_updates pm b env).1 = true ∧
       Ev.officialRun ∈ (check_updates pm b env).2 ∧
       ((check_updates pm b env).2).count Ev.lockAttempt = 2) ∧
    (∀ pm b env,
       isOkE (acquire_lock env.fs env.lock1 env.pid) = true →
       isOkE (check_updates pm b env).1 = true ∧
       Ev.officialRun ∈ (check_updates pm b env).2 ∧
       ((check_updates pm b env).2).count Ev.lockAttempt = 1) := by
  refine ⟨?_, ?_, ?_⟩
  · intro pm b env e1 e2 h1 h2
    unfold check_updates
    rw [h1, h2]
  · intro pm b env e1 h1 h2
    cases hacq2 : acquire_lock env.fs env.lock2 env.pid with
    | error e2 => rw [hacq2] at h2; simp [isOkE] at h2
    | ok f =>
      have heq : check_updates pm b env =
          checkBody pm env [Ev.lockAttempt, Ev.sleepSecs 2, Ev.lockAttempt] := by
        unfold check_updates; rw [h1, hacq2]
      rw [heq]
      exact ⟨checkBody_isOk pm env _, officialRun_mem_checkBody pm env _,
        by rw [count_lockAttempt_checkBody]; rfl⟩
  · intro pm b env h1
    cases hacq1 : acquire_lock env.fs env.lock1 env.pid with
    | error e1 => rw [hacq1] at h1; simp [isOkE] at h1
    | ok f =>
      have heq : check_updates pm b env = checkBody pm env [Ev.lockAttempt] := by
        unfold check_updates; rw [hacq1]
      rw [heq]
      exact ⟨checkBody_isOk pm env _, officialRun_mem_checkBody pm env _,
        by rw [count_lockAttempt_checkBody]; rfl⟩

/-- Environment where both lock-open attempts are denied, for C7. -/
def envC7F : CheckEnv :=
  { fs := ⟨none⟩, pid := 5,
    lock1 := .failure .permissionDenied, lock2 := .failure .permissionDenied,
    official1 := Except.ok ⟨some 0, ""⟩, official2 := Except.ok ⟨some 0, ""⟩,
    aur1 := Except.ok ⟨some 0, ""⟩, aur2 := Except.ok ⟨some 0, ""⟩ }

/-- Environment where the first lock attempt errors and the retry succeeds. -/
def envC7R : CheckEnv :=
  { fs := ⟨none⟩, pid := 6,
    lock1 := .failure (.otherError "disk"), lock2 := .success,
    official1 := Except.ok ⟨some 0, ""⟩, official2 := Except.ok ⟨some 0, ""⟩,
    aur1 := Except.ok ⟨some 0, ""⟩, aur2 := Except.ok ⟨some 0, ""⟩ }

/-- Environment where the first lock attempt succeeds at once. -/
def envC7S : CheckEnv :=
  { fs := ⟨none⟩, pid := 8, lock1 := .success, lock2 := .success,
    official1 := Except.ok ⟨some 0, ""⟩, official2 := Except.ok ⟨some 0, ""⟩,
    aur1 := Except.ok ⟨some 0, ""⟩, aur2 := Except.ok ⟨some 0, ""⟩ }

/-- Witness for C7 on the three concrete lock scenarios. -/
theorem c7_lock_acquisition_retry_witness :
    check_updates PackageManager.Pacman true envC7F =
      (Except.error ("Update check already in progress: " ++
         "Another instance is checking for updates"),
       [Ev.lockAttempt, Ev.sleepSecs 2, Ev.lockAttempt]) ∧
    (isOkE (check_updates PackageManager.Apt true envC7R).1 = true ∧
     Ev.officialRun ∈ (check_updates PackageManager.Apt true envC7R).2 ∧
     ((check_updates PackageManager.Apt true envC7R).2).count Ev.lockAttempt = 2) ∧
    (isOkE (check_updates PackageManager.Apt true envC7S).1 = true ∧
     Ev.officialRun ∈ (check_updates PackageManager.Apt true envC7S).2 ∧
     ((check_updates PackageManager.Apt true envC7S).2).count Ev.lockAttempt = 1) :=
  ⟨c7_lock_acquisition_retry.1 PackageManager.Pacman true envC7F
      "Another instance is checking for updates"
      "Another instance is checking for updates" rfl rfl,
   c7_lock_acquisition_retry.2.1 PackageManager.Apt true envC7R
      ("Failed to acquire lock: " ++ "disk") rfl rfl,
   c7_lock_acquisition_retry.2.2 PackageManager.Apt true envC7S rfl⟩

/-- Folding a push-if over a list starting from `acc` appends the filter. -/
theorem foldl_push_eq_filter {α : Type} (p : α → Bool) (l acc : List α) :
    l.foldl (fun a x => if p x then a ++ [x] else a) acc = acc ++ l.filter p := by
  induction l generalizing acc with
  | nil => simp
  | cons x xs ih =>
    simp only [List.foldl_cons, List.filter_cons]
    cases hp : p x
    · simp [hp, ih]
    · simp [hp, ih]

/-- Every manager identity occurs in the fixed probe order. -/
theorem mem_priorityOrder (pm : PackageManager) : pm ∈ priorityOrder := by
  cases pm <;> simp [priorityOrder]

/-- The detector's push loop is the filter of the priority list. -/
theorem detect_available_eq_filter (probe : PackageManager → Except Unit Bool) :
    detect_available probe = priorityOrder.filter (is_available probe) := by
  unfold detect_available
  rw [foldl_push_eq_filter]
  simp

/-- C8: `detect_available` returns exactly the ordered subsequence of the
fixed priority list whose probes resolve; `get_preferred` is its first
element; a probe error is treated as not available and never fails the
detector. -/
theorem c8_detector_priority_subsequence :
    (∀ probe, List.Sublist (detect_available probe) priorityOrder) ∧
    (∀ probe pm, pm ∈ detect_available probe ↔ is_available probe pm = true) ∧
    (∀ probe, get_preferred probe = (detect_available probe).head?) ∧
    (∀ probe pm e, probe pm = Except.error e → is_available probe pm = false) := by
  refine ⟨?_, ?_, fun probe => rfl, ?_⟩
  · intro probe
    rw [detect_available_eq_filter]
    exact List.filter_sublist _
  · intro probe pm
    rw [detect_available_eq_filter, List.mem_filter]
    simp [mem_priorityOrder pm]
  · intro probe pm e h
    unfold is_available
    rw [h]

/-- Probe outcome used by the C8 witness: Paru resolves, the Pacman probe
errors, everything else reports unavailable. -/
def probeW : PackageManager → Except Unit Bool
  | .Paru => Except.ok true
  | .Pacman => Except.error ()
  | _ => Except.ok false

/-- Witness for C8: the errored Pacman probe counts as unavailable. -/
theorem c8_detector_priority_subsequence_witness :
    is_available probeW PackageManager.Pacman = false :=
  c8_detector_priority_subsequence.2.2.2 probeW PackageManager.Pacman () rfl

/-- The generic open-failure message never equals the contention message. -/
theorem failed_lock_msg_ne (m : String) :
    ("Failed to acquire lock: " ++ m) ≠ "Another instance is checking for updates" := by
  intro h
  have h3 : ("Failed to acquire lock: " ++ m).data.head? = some 'F' := rfl
  rw [h] at h3
  exact absurd h3 (by decide)

/-- C9: `acquire_lock` reports the contention message iff the open failed
with permission denied; a successful open truncates any previous content
and writes the caller's pid, so an openable pre-existing lock file never
blocks acquisition; dropping the handle leaves the lock file in place. -/
theorem c9_lock_file_semantics :
    (∀ fs o pid,
       (acquire_lock fs o pid = Except.error "Another instance is checking for updates" ↔
        o = OpenOutcome.failure LockErrorKind.permissionDenied)) ∧
    (∀ fs pid, acquire_lock fs OpenOutcome.success pid =
       Except.ok ⟨some (Nat.repr pid ++ "\n")⟩) ∧
    (∀ fs pid c, fs.lockFile = some c →
       isOkE (acquire_lock fs OpenOutcome.success pid) = true) ∧
    (∀ fs, releaseLock fs = fs) := by
  refine ⟨?_, fun fs pid => rfl, fun fs pid c _ => rfl, fun fs => rfl⟩
  intro fs o pid
  constructor
  · intro h
    cases o with
    | success => simp [acquire_lock] at h
    | failure k =>
      cases k with
      | permissionDenied => rfl
      | otherError m =>
        exfalso
        simp only [acquire_lock, Except.error.injEq] at h
        exact failed_lock_msg_ne m h
  · intro h
    subst h
    rfl

/-- Witness for C9: an existing writable lock file does not block. -/
theorem c9_lock_file_semantics_witness :
    isOkE (acquire_lock ⟨some "123\n"⟩ OpenOutcome.success 42) = true :=
  c9_lock_file_semantics.2.2.1 ⟨some "123\n"⟩ 42 "123\n" rfl
